import Mathlib

/-!
Shallow embedding of the Drive-Purge-Ai audit pipeline (src/App.tsx,
src/services/googleDriveService.ts, src/types.ts).  The React component's
pieces of `useState` become fields of a `Session` record; each handler
(`startAnalysis`, `handleCleanup`, the card `onSelect` toggle, the
"Return to Dashboard" click) becomes a function from `Session` to
`Session`, with the fallible collaborators (`driveService.login`,
`driveService.listFiles`, `analyzeFilesWithGemini`, `driveService.trashFile`)
passed in as `Except`-valued oracles.  JavaScript `Set` values are modelled
as duplicate-free lists in insertion order, numbers as rationals.
-/

namespace DrivePurge

/-- DriveFile (src/types.ts): one storage object as listed by the source. -/
structure DriveFile where
  id : String
  name : String
  size : Option String := none
  mimeType : String
  modifiedTime : String
  md5Checksum : Option String := none
  webViewLink : Option String := none
  thumbnailLink : Option String := none
deriving DecidableEq

/-- The closed category set of src/types.ts `CleanupCandidate.category`. -/
inductive Category where
  | duplicate
  | old
  | large
deriving DecidableEq

/-- CleanupCandidate (src/types.ts): the classifier's opinion about one file. -/
structure CleanupCandidate where
  id : String
  reason : String
  category : Category
  confidence : ℚ
deriving DecidableEq

/-- AnalysisResult (src/types.ts): candidates plus a summary string. -/
structure AnalysisResult where
  candidates : List CleanupCandidate
  summary : String
deriving DecidableEq

/-- AppState (src/types.ts). -/
inductive AppState where
  | LANDING
  | AUTHENTICATING
  | SCANNING
  | ANALYZING
  | REVIEWING
  | TRASHING
  | COMPLETED
deriving DecidableEq

/-- The error record App.tsx keeps in `setError` (the `origin` field is
`window.location.origin`, an environment constant, so it is omitted). -/
structure ErrInfo where
  title : String
  msg : String
deriving DecidableEq

/-- The App component's pieces of `useState` (src/App.tsx lines 17-23),
minus `isAuthenticated`, which is threaded separately where it matters. -/
structure Session where
  state : AppState
  files : List DriveFile
  candidates : List CleanupCandidate
  selectedIds : List String
  agentMessage : String
  error : Option ErrInfo
deriving DecidableEq

/-- The fresh component state (src/App.tsx lines 17-23 initial values). -/
def initSession : Session :=
  { state := AppState.LANDING
    files := []
    candidates := []
    selectedIds := []
    agentMessage := "System standby..."
    error := none }

def mockFile1 : DriveFile :=
  { id := "m1", name := "Draft_Budget_v1_FINAL_2022.pdf", size := some "12500000",
    mimeType := "application/pdf", modifiedTime := "2022-03-12T10:00:00Z" }

def mockFile2 : DriveFile :=
  { id := "m2", name := "Draft_Budget_v1_FINAL_2022.pdf", size := some "12500000",
    mimeType := "application/pdf", modifiedTime := "2022-03-12T10:00:00Z" }

def mockFile3 : DriveFile :=
  { id := "m3", name := "4K_Drone_Footage_Unprocessed.mp4", size := some "3200000000",
    mimeType := "video/mp4", modifiedTime := "2023-11-20T15:30:00Z" }

def mockFile4 : DriveFile :=
  { id := "m4", name := "Backup_Logs_Temp.zip", size := some "850000000",
    mimeType := "application/zip", modifiedTime := "2024-01-10T09:15:00Z" }

def mockFile5 : DriveFile :=
  { id := "m5", name := "Meeting_Notes_2019.txt", size := some "2500",
    mimeType := "text/plain", modifiedTime := "2019-01-01T12:00:00Z" }

/-- MOCK_FILES (src/App.tsx lines 8-14), the demonstration file set. -/
def MOCK_FILES : List DriveFile :=
  [mockFile1, mockFile2, mockFile3, mockFile4, mockFile5]

/-- JavaScript `Set.add` on a list kept in insertion order: appends the
element unless it is already present. -/
def insertSet (s : List String) (x : String) : List String :=
  if x ∈ s then s else s ++ [x]

/-- JavaScript `new Set(array)`: first occurrences, in insertion order. -/
def listToSet (l : List String) : List String :=
  l.foldl insertSet []

/-- The confidence threshold hardcoded in both selection sites
(src/App.tsx line 67: `c.confidence > 0.7`). -/
def confidenceThreshold : ℚ := mkRat 7 10

/-- The initial auto-selection (src/App.tsx lines 66-70):
`new Set(analysis.candidates.filter(c => c.confidence > 0.7).map(c => c.id))`. -/
def autoSelectIds (cands : List CleanupCandidate) : List String :=
  listToSet ((cands.filter (fun c => confidenceThreshold < c.confidence)).map
    (fun c => c.id))

/-- JavaScript `e.message || fallbackText`: the empty string is falsy. -/
def orElseMsg (e fallbackText : String) : String :=
  if e.isEmpty then fallbackText else e

/-- startAnalysis (src/App.tsx lines 36-81).  `login`, `listFiles` and
`classify` stand for `driveService.login()`, `driveService.listFiles()` and
`analyzeFilesWithGemini`; each `setX` call becomes a record update, and the
single try/catch around fetch-then-classify becomes the two error branches
(both set the "Audit Interrupted" error and fall back to LANDING). -/
def startAnalysis (isDemo : Bool) (isAuthenticated : Bool)
    (login : Except String Unit)
    (listFiles : Except String (List DriveFile))
    (classify : List DriveFile → Except String AnalysisResult)
    (s : Session) : Session :=
  let s0 : Session := { s with error := none }
  if !isDemo && !isAuthenticated then
    match login with
    | Except.ok _ =>
        { s0 with agentMessage := "Handshaking with Google..." }
    | Except.error e =>
        { s0 with agentMessage := "Handshaking with Google...",
                  error := some { title := "Connection Failed",
                                  msg := orElseMsg e "storagerelay error" } }
  else
    let s1 : Session :=
      { s0 with state := AppState.SCANNING,
                agentMessage := "Parsing file hierarchy..." }
    match (if isDemo then Except.ok MOCK_FILES else listFiles) with
    | Except.error e =>
        { s1 with error := some { title := "Audit Interrupted",
                                  msg := orElseMsg e "Analysis engine failure." },
                  state := AppState.LANDING }
    | Except.ok fetchedFiles =>
        let s2 : Session :=
          { s1 with files := fetchedFiles,
                    state := AppState.ANALYZING,
                    agentMessage := "AI Agent reasoning over metadata..." }
        match classify fetchedFiles with
        | Except.error e =>
            { s2 with error := some { title := "Audit Interrupted",
                                      msg := orElseMsg e "Analysis engine failure." },
                      state := AppState.LANDING }
        | Except.ok analysis =>
            { s2 with candidates := analysis.candidates,
                      selectedIds := autoSelectIds analysis.candidates,
                      agentMessage := analysis.summary,
                      state := AppState.REVIEWING }

/-- The awaited for-of loop of handleCleanup (src/App.tsx lines 89-91):
ids are attempted in order; the first throwing `trashFile` call aborts the
loop.  Returns the first error (if any) and the list of ids on which a
trash call was actually issued. -/
def trashLoop (trash : String → Except String Unit) :
    List String → Option String × List String
  | [] => (none, [])
  | x :: rest =>
    match trash x with
    | Except.error e => (some e, [x])
    | Except.ok _ =>
      let r := trashLoop trash rest
      (r.1, x :: r.2)

/-- handleCleanup (src/App.tsx lines 83-102).  Empty selection: silent
early return.  All trash calls succeed: files/candidates are filtered by
the selection, the selection is cleared, state becomes COMPLETED.  Any
trash call throws: the catch sets a "Cleanup Error" and returns the state
to REVIEWING, leaving files/candidates/selection untouched.  The second
component is the list of ids a trash call was issued for. -/
def handleCleanup (trash : String → Except String Unit) (s : Session) :
    Session × List String :=
  if s.selectedIds.isEmpty then (s, [])
  else
    let n := s.selectedIds.length
    let s1 : Session :=
      { s with state := AppState.TRASHING,
               agentMessage := "Trashing " ++ toString n ++ " files..." }
    match trashLoop trash s.selectedIds with
    | (some e, attempted) =>
        ({ s1 with error := some { title := "Cleanup Error", msg := e },
                   state := AppState.REVIEWING }, attempted)
    | (none, attempted) =>
        ({ s1 with files := s.files.filter (fun f => !(s.selectedIds.contains f.id)),
                   candidates := s.candidates.filter
                     (fun c => !(s.selectedIds.contains c.id)),
                   selectedIds := [],
                   state := AppState.COMPLETED }, attempted)

/-- The card onSelect handler (src/App.tsx lines 172-176): flip membership
of `x` in the selection set (`Set.delete` keeps order, `Set.add` appends). -/
def toggleSelection (sel : List String) (x : String) : List String :=
  if x ∈ sel then sel.erase x else sel ++ [x]

/-- The "Return to Dashboard" click on the COMPLETED screen (src/App.tsx
line 187) and the nav logo click (line 107): `setState(AppState.LANDING)`
and nothing else. -/
def resetClick (s : Session) : Session :=
  { s with state := AppState.LANDING }

/-- The candidates actually rendered in REVIEWING (src/App.tsx lines
169-178): `candidates.map(...)` returns a card only when
`files.find(f => f.id === candidate.id)` matched, else null. -/
def surfacedCandidates (files : List DriveFile) (cands : List CleanupCandidate) :
    List CleanupCandidate :=
  cands.filter (fun c => (files.find? (fun f => f.id == c.id)).isSome)

/-- The id prefix `trashFile` treats as a demo id (src/services/googleDriveService.ts
line 98: `fileId.startsWith('m')`). -/
def demoIdMark : String := "m"

/-- JavaScript `s.startsWith(pre)` modelled on the underlying character
list (the builtin byte-level `String.startsWith` does not reduce in the
kernel). -/
def strStartsWith (s pre : String) : Bool :=
  pre.data.isPrefixOf s.data

/-- trashFile (src/services/googleDriveService.ts lines 97-103): demo-marked
ids (`fileId.startsWith('m')`) return immediately; any other id issues
exactly one Drive API update call, modelled by the `api` oracle.  The
second component is the list of ids an API update call was issued for. -/
def trashFile (api : String → Except String Unit) (fileId : String) :
    Except String Unit × List String :=
  if strStartsWith fileId demoIdMark then (Except.ok (), [])
  else (api fileId, [fileId])

/-! Concrete fixtures used by witnesses and counterexamples. -/

/-- A file with id `a`. -/
def exFa : DriveFile :=
  { id := "a", name := "a.txt", mimeType := "text/plain", modifiedTime := "2020-01-01" }

/-- A file with id `b`. -/
def exFb : DriveFile :=
  { id := "b", name := "b.txt", mimeType := "text/plain", modifiedTime := "2020-01-02" }

/-- A file with id `c`. -/
def exFc : DriveFile :=
  { id := "c", name := "c.txt", mimeType := "text/plain", modifiedTime := "2020-01-03" }

/-- A candidate for file `a`. -/
def exCa : CleanupCandidate :=
  { id := "a", reason := "old draft", category := Category.old, confidence := mkRat 9 10 }

/-- A candidate for file `b`. -/
def exCb : CleanupCandidate :=
  { id := "b", reason := "old draft", category := Category.old, confidence := mkRat 9 10 }

/-- A candidate for file `c`. -/
def exCc : CleanupCandidate :=
  { id := "c", reason := "old draft", category := Category.old, confidence := mkRat 9 10 }

/-- A REVIEWING session holding files a, b, c, all three candidates and all
three ids selected. -/
def exSessionABC : Session :=
  { state := AppState.REVIEWING
    files := [exFa, exFb, exFc]
    candidates := [exCa, exCb, exCc]
    selectedIds := ["a", "b", "c"]
    agentMessage := "review"
    error := none }

/-- A trash oracle that fails exactly on id `b`. -/
def exTrashB : String → Except String Unit :=
  fun x => if x = "b" then Except.error "fail" else Except.ok ()

/-- A trash oracle that always succeeds. -/
def exTrashOk : String → Except String Unit :=
  fun _ => Except.ok ()

/-- An API oracle that always fails, to witness that demo ids never reach it. -/
def exApiFail : String → Except String Unit :=
  fun x => Except.error ("api " ++ x)

/-- A login oracle that succeeds. -/
def exLogin : Except String Unit := Except.ok ()

/-- A listFiles oracle returning no files (unused on the demo path). -/
def exListFiles : Except String (List DriveFile) := Except.ok []

/-- A classifier oracle that throws. -/
def exClassifyBoom : List DriveFile → Except String AnalysisResult :=
  fun _ => Except.error "boom"

/-- An analysis flagging `m1` as a high-confidence duplicate. -/
def exM1Analysis : AnalysisResult :=
  { candidates := [{ id := "m1", reason := "duplicate of m2",
                     category := Category.duplicate, confidence := mkRat 9 10 }]
    summary := "one duplicate" }

/-- A classifier oracle returning `exM1Analysis`. -/
def exClassifyM1 : List DriveFile → Except String AnalysisResult :=
  fun _ => Except.ok exM1Analysis

/-- The REVIEWING session the demo path reaches under `exClassifyM1`. -/
def exReviewingSession : Session :=
  startAnalysis true false exLogin exListFiles exClassifyM1 initSession

/-- The COMPLETED session after purging the one selected demo id. -/
def exCompletedSession : Session :=
  (handleCleanup exTrashOk exReviewingSession).1

/-- A candidate for a file with id `f1`, first duplicate. -/
def exDupCand1 : CleanupCandidate :=
  { id := "f1", reason := "dup one", category := Category.duplicate, confidence := mkRat 9 10 }

/-- A second classifier candidate for the same id `f1`. -/
def exDupCand2 : CleanupCandidate :=
  { id := "f1", reason := "dup two", category := Category.duplicate, confidence := mkRat 8 10 }

/-- A candidate whose id `zz` matches no file. -/
def exOrphanCand : CleanupCandidate :=
  { id := "zz", reason := "orphan", category := Category.old, confidence := mkRat 9 10 }

/-- A candidate sitting exactly at the threshold. -/
def exTieCand : CleanupCandidate :=
  { id := "t1", reason := "borderline", category := Category.large, confidence := mkRat 7 10 }

/-- The file `f1` referenced by the duplicate candidates. -/
def exFileA : DriveFile :=
  { id := "f1", name := "f1.txt", mimeType := "text/plain", modifiedTime := "2020-01-01" }

/-- An analysis with one high-confidence candidate and one exactly at the
threshold. -/
def exAnalysis : AnalysisResult :=
  { candidates := [{ id := "m1", reason := "duplicate of m2",
                     category := Category.duplicate, confidence := mkRat 9 10 },
                   exTieCand]
    summary := "one duplicate, one borderline" }

/-- A REVIEWING session with one candidate and an empty selection. -/
def exEmptyReview : Session :=
  { state := AppState.REVIEWING
    files := [exFileA]
    candidates := [exDupCand1]
    selectedIds := []
    agentMessage := "review"
    error := none }

/-- A small REVIEWING session with one candidate `f1`, which is selected. -/
def exReviewingSmall : Session :=
  { state := AppState.REVIEWING
    files := [exFileA]
    candidates := [exDupCand1]
    selectedIds := ["f1"]
    agentMessage := "review"
    error := none }

/-! Helper lemmas about the JS-Set model and the trash loop. -/

theorem mem_insertSet (s : List String) (a x : String) :
    x ∈ insertSet s a ↔ x ∈ s ∨ x = a := by
  unfold insertSet
  by_cases h : a ∈ s
  · rw [if_pos h]
    constructor
    · exact Or.inl
    · rintro (hx | rfl)
      · exact hx
      · exact h
  · rw [if_neg h]
    simp

theorem mem_foldl_insertSet (l : List String) (acc : List String) (x : String) :
    x ∈ l.foldl insertSet acc ↔ x ∈ acc ∨ x ∈ l := by
  induction l generalizing acc with
  | nil => simp
  | cons a t ih =>
    rw [List.foldl_cons, ih (insertSet acc a), mem_insertSet]
    simp only [List.mem_cons]
    tauto

theorem mem_listToSet (l : List String) (x : String) :
    x ∈ listToSet l ↔ x ∈ l := by
  unfold listToSet
  rw [mem_foldl_insertSet]
  simp

theorem mem_autoSelectIds (cands : List CleanupCandidate) (x : String) :
    x ∈ autoSelectIds cands ↔
      ∃ c ∈ cands, c.id = x ∧ confidenceThreshold < c.confidence := by
  unfold autoSelectIds
  rw [mem_listToSet]
  simp only [List.mem_map, List.mem_filter, decide_eq_true_eq]
  constructor
  · rintro ⟨c, ⟨hc, hconf⟩, hid⟩
    exact ⟨c, hc, hid, hconf⟩
  · rintro ⟨c, hc, hid, hconf⟩
    exact ⟨c, ⟨hc, hconf⟩, hid⟩

theorem trashLoop_first_error (trash : String → Except String Unit)
    (pre post : List String) (b e : String)
    (hpre : ∀ x ∈ pre, trash x = Except.ok ())
    (hb : trash b = Except.error e) :
    trashLoop trash (pre ++ b :: post) = (some e, pre ++ [b]) := by
  induction pre with
  | nil =>
    simp only [List.nil_append]
    unfold trashLoop
    rw [hb]
  | cons a t ih =>
    have ha : trash a = Except.ok () := hpre a (List.mem_cons_self a t)
    have ht : ∀ x ∈ t, trash x = Except.ok () :=
      fun x hx => hpre x (List.mem_cons_of_mem a hx)
    simp only [List.cons_append]
    unfold trashLoop
    rw [ha, ih ht]

theorem trashLoop_all_ok (trash : String → Except String Unit)
    (l : List String) (h : ∀ x ∈ l, trash x = Except.ok ()) :
    trashLoop trash l = (none, l) := by
  induction l with
  | nil => rfl
  | cons a t ih =>
    have ha : trash a = Except.ok () := h a (List.mem_cons_self a t)
    unfold trashLoop
    rw [ha, ih (fun x hx => h x (List.mem_cons_of_mem a hx))]

/-- The error branch of handleCleanup: whenever the trash loop over the
selection reports a failure, the whole call returns the input session with
only state (REVIEWING), agentMessage and error changed, and reports the
attempted ids. -/
theorem handleCleanup_error (trash : String → Except String Unit) (s : Session)
    (e : String) (attempted : List String)
    (h : trashLoop trash s.selectedIds = (some e, attempted)) :
    handleCleanup trash s =
      ({ s with state := AppState.REVIEWING,
                agentMessage := "Trashing " ++ toString s.selectedIds.length ++ " files...",
                error := some { title := "Cleanup Error", msg := e } }, attempted) := by
  have hne : s.selectedIds.isEmpty = false := by
    cases hsel : s.selectedIds with
    | nil => rw [hsel] at h; simp [trashLoop] at h
    | cons a t => rfl
  unfold handleCleanup
  simp only [hne, Bool.false_eq_true, if_false, h]

/-- C10: if any per-id trash call throws during the batch cleanup, the
session's files, candidates and selection are exactly as they were before
the cleanup began and the phase returns to REVIEWING; the in-session state
update is all-or-nothing even though the trash calls already issued (the
second component) are not undone. -/
theorem cleanup_failure_frame (trash : String → Except String Unit) (s : Session)
    (e : String) (attempted : List String)
    (h : trashLoop trash s.selectedIds = (some e, attempted)) :
    (handleCleanup trash s).1.files = s.files ∧
    (handleCleanup trash s).1.candidates = s.candidates ∧
    (handleCleanup trash s).1.selectedIds = s.selectedIds ∧
    (handleCleanup trash s).1.state = AppState.REVIEWING ∧
    (handleCleanup trash s).2 = attempted := by
  rw [handleCleanup_error trash s e attempted h]
  exact ⟨rfl, rfl, rfl, rfl, rfl⟩

/-- Witness for C10 at the concrete session a,b,c with the trash call
failing on b. -/
theorem cleanup_failure_frame_witness :
    (handleCleanup exTrashB exSessionABC).1.files = exSessionABC.files ∧
    (handleCleanup exTrashB exSessionABC).1.candidates = exSessionABC.candidates ∧
    (handleCleanup exTrashB exSessionABC).1.selectedIds = exSessionABC.selectedIds ∧
    (handleCleanup exTrashB exSessionABC).1.state = AppState.REVIEWING ∧
    (handleCleanup exTrashB exSessionABC).2 = ["a", "b"] :=
  cleanup_failure_frame exTrashB exSessionABC "fail" ["a", "b"] (by decide)

/-- C1 counterexample: with selection a,b,c and the trash call failing only
on b, the code aborts at b (c is never attempted), removes nothing from
files, keeps the whole selection and returns to REVIEWING — the claimed
result (succeeded a and c, a and c removed, b retained alone) is false. -/
theorem cleanup_isolation_cex :
    (handleCleanup exTrashB exSessionABC).2 = ["a", "b"] ∧
    (handleCleanup exTrashB exSessionABC).1.files = [exFa, exFb, exFc] ∧
    (handleCleanup exTrashB exSessionABC).1.selectedIds = ["a", "b", "c"] ∧
    (handleCleanup exTrashB exSessionABC).1.state = AppState.REVIEWING := by
  refine ⟨by decide, by decide, by decide, by decide⟩

/-- C1 amended: if the selection is pre ++ b :: post, every id in pre
trashes successfully and b's trash call throws, then trash calls are issued
exactly for pre ++ [b] (the ids after b are skipped), the session's files,
candidates and selection are unchanged, an error is recorded and the phase
returns to REVIEWING; no per-id success/failure report exists. -/
theorem remediation_abort (trash : String → Except String Unit) (s : Session)
    (pre post : List String) (b e : String)
    (hsel : s.selectedIds = pre ++ b :: post)
    (hpre : ∀ x ∈ pre, trash x = Except.ok ())
    (hb : trash b = Except.error e) :
    (handleCleanup trash s).1.files = s.files ∧
    (handleCleanup trash s).1.candidates = s.candidates ∧
    (handleCleanup trash s).1.selectedIds = s.selectedIds ∧
    (handleCleanup trash s).1.state = AppState.REVIEWING ∧
    (handleCleanup trash s).1.error = some { title := "Cleanup Error", msg := e } ∧
    (handleCleanup trash s).2 = pre ++ [b] := by
  have h := trashLoop_first_error trash pre post b e hpre hb
  rw [← hsel] at h
  rw [handleCleanup_error trash s e (pre ++ [b]) h]
  exact ⟨rfl, rfl, rfl, rfl, rfl, rfl⟩

/-- Witness for the amended C1 at the concrete session a,b,c. -/
theorem remediation_abort_witness :
    (handleCleanup exTrashB exSessionABC).1.files = exSessionABC.files ∧
    (handleCleanup exTrashB exSessionABC).1.candidates = exSessionABC.candidates ∧
    (handleCleanup exTrashB exSessionABC).1.selectedIds = exSessionABC.selectedIds ∧
    (handleCleanup exTrashB exSessionABC).1.state = AppState.REVIEWING ∧
    (handleCleanup exTrashB exSessionABC).1.error =
      some { title := "Cleanup Error", msg := "fail" } ∧
    (handleCleanup exTrashB exSessionABC).2 = ["a"] ++ ["b"] :=
  remediation_abort exTrashB exSessionABC ["a"] ["c"] "b" "fail" rfl
    (by intro x hx; rw [List.mem_singleton] at hx; subst hx; rfl) rfl

/-- C2: when startAnalysis reaches REVIEWING, the initial selection
contains exactly the candidate ids whose confidence strictly exceeds the
hardcoded threshold 0.7 (a candidate exactly at the threshold is not
selected). -/
theorem auto_selection_strict (isDemo isAuthenticated : Bool)
    (login : Except String Unit) (listFiles : Except String (List DriveFile))
    (classify : List DriveFile → Except String AnalysisResult)
    (s : Session) (fetchedFiles : List DriveFile) (a : AnalysisResult) (x : String)
    (hgate : (!isDemo && !isAuthenticated) = false)
    (hfetch : (if isDemo then Except.ok MOCK_FILES else listFiles) =
      Except.ok fetchedFiles)
    (hclassify : classify fetchedFiles = Except.ok a) :
    (startAnalysis isDemo isAuthenticated login listFiles classify s).state =
      AppState.REVIEWING ∧
    (x ∈ (startAnalysis isDemo isAuthenticated login listFiles classify s).selectedIds ↔
      ∃ c ∈ a.candidates, c.id = x ∧ confidenceThreshold < c.confidence) := by
  unfold startAnalysis
  simp only [hgate, Bool.false_eq_true, if_false, hfetch, hclassify]
  simp [mem_autoSelectIds]

/-- Witness for C2 on the demo path with one candidate above and one
exactly at the threshold. -/
theorem auto_selection_strict_witness :
    (startAnalysis true false exLogin exListFiles (fun _ => Except.ok exAnalysis)
        initSession).state = AppState.REVIEWING ∧
    ("m1" ∈ (startAnalysis true false exLogin exListFiles
        (fun _ => Except.ok exAnalysis) initSession).selectedIds ↔
      ∃ c ∈ exAnalysis.candidates, c.id = "m1" ∧
        confidenceThreshold < c.confidence) :=
  auto_selection_strict true false exLogin exListFiles
    (fun _ => Except.ok exAnalysis) initSession MOCK_FILES exAnalysis "m1"
    rfl rfl rfl

/-- C3 amended: a candidate is surfaced in REVIEWING iff it appears in the
classifier output and some file matches its id; orphans are thus never
rendered, but classifier duplicates for the same id are all surfaced, none
is discarded. -/
theorem surfaced_mem_iff (files : List DriveFile) (cands : List CleanupCandidate)
    (c : CleanupCandidate) :
    c ∈ surfacedCandidates files cands ↔
      c ∈ cands ∧ ∃ f ∈ files, f.id = c.id := by
  unfold surfacedCandidates
  simp only [List.mem_filter, List.find?_isSome, beq_iff_eq]

/-- C3 counterexample: with one file f1, two classifier candidates for f1
and an orphan candidate zz, both duplicates are surfaced (the surfaced id
list is not duplicate-free), and the orphan id still enters the initial
auto-selection. -/
theorem surfaced_duplicates_cex :
    surfacedCandidates [exFileA] [exDupCand1, exDupCand2, exOrphanCand] =
      [exDupCand1, exDupCand2] ∧
    ¬ ((surfacedCandidates [exFileA] [exDupCand1, exDupCand2, exOrphanCand]).map
        (fun c => c.id)).Nodup ∧
    "zz" ∈ autoSelectIds [exDupCand1, exDupCand2, exOrphanCand] := by
  refine ⟨by decide, by decide, by decide⟩

/-- C4 amended: calling handleCleanup with an empty selection returns
silently: no trash call is issued and the session — phase, files,
candidates, selection and error field alike — is unchanged; no
PreconditionError (or any error) is recorded. -/
theorem empty_selection_silent_noop (trash : String → Except String Unit)
    (s : Session) (h : s.selectedIds = []) :
    handleCleanup trash s = (s, []) := by
  unfold handleCleanup
  rw [h]
  rfl

/-- Witness for the amended C4 at a concrete empty-selection session. -/
theorem empty_selection_silent_noop_witness :
    handleCleanup exTrashB exEmptyReview = (exEmptyReview, []) :=
  empty_selection_silent_noop exTrashB exEmptyReview rfl

/-- C4 counterexample: on an empty selection the call completes as a no-op
with the error field still none and the phase still REVIEWING — it does
not fail with a PreconditionError (no such failure exists in the code). -/
theorem empty_selection_no_error_cex :
    handleCleanup exTrashB exEmptyReview = (exEmptyReview, []) ∧
    (handleCleanup exTrashB exEmptyReview).1.error = none ∧
    (handleCleanup exTrashB exEmptyReview).1.state = AppState.REVIEWING := by
  refine ⟨by decide, by decide, by decide⟩

/-- C5 amended: when the classifier throws, the session moves from
ANALYZING to LANDING with an "Audit Interrupted" error recorded and a new
scan is still permitted (and reaches REVIEWING once the classifier
succeeds), but the files fetched during the aborted attempt are retained
in the session's file list, not discarded. -/
theorem classify_failure_keeps_files (isDemo isAuthenticated : Bool)
    (login : Except String Unit) (listFiles : Except String (List DriveFile))
    (classify : List DriveFile → Except String AnalysisResult)
    (s : Session) (fetchedFiles : List DriveFile) (e : String)
    (hgate : (!isDemo && !isAuthenticated) = false)
    (hfetch : (if isDemo then Except.ok MOCK_FILES else listFiles) =
      Except.ok fetchedFiles)
    (hclassify : classify fetchedFiles = Except.error e) :
    (startAnalysis isDemo isAuthenticated login listFiles classify s).state =
      AppState.LANDING ∧
    (startAnalysis isDemo isAuthenticated login listFiles classify s).files =
      fetchedFiles ∧
    (startAnalysis isDemo isAuthenticated login listFiles classify s).error =
      some { title := "Audit Interrupted",
             msg := orElseMsg e "Analysis engine failure." } ∧
    (startAnalysis isDemo isAuthenticated login listFiles classify s).candidates =
      s.candidates ∧
    (startAnalysis isDemo isAuthenticated login listFiles classify s).selectedIds =
      s.selectedIds ∧
    (∀ a : AnalysisResult,
      (startAnalysis isDemo isAuthenticated login listFiles (fun _ => Except.ok a)
        (startAnalysis isDemo isAuthenticated login listFiles classify s)).state =
          AppState.REVIEWING) := by
  unfold startAnalysis
  simp only [hgate, Bool.false_eq_true, if_false, hfetch, hclassify]
  simp

/-- Witness for the amended C5 on the demo path with a throwing classifier. -/
theorem classify_failure_keeps_files_witness :
    (startAnalysis true false exLogin exListFiles exClassifyBoom initSession).state =
      AppState.LANDING ∧
    (startAnalysis true false exLogin exListFiles exClassifyBoom initSession).files =
      MOCK_FILES ∧
    (startAnalysis true false exLogin exListFiles exClassifyBoom initSession).error =
      some { title := "Audit Interrupted",
             msg := orElseMsg "boom" "Analysis engine failure." } ∧
    (startAnalysis true false exLogin exListFiles exClassifyBoom initSession).candidates =
      initSession.candidates ∧
    (startAnalysis true false exLogin exListFiles exClassifyBoom initSession).selectedIds =
      initSession.selectedIds ∧
    (∀ a : AnalysisResult,
      (startAnalysis true false exLogin exListFiles (fun _ => Except.ok a)
        (startAnalysis true false exLogin exListFiles exClassifyBoom initSession)).state =
          AppState.REVIEWING) :=
  classify_failure_keeps_files true false exLogin exListFiles exClassifyBoom
    initSession MOCK_FILES "boom" rfl rfl rfl

/-- C5 counterexample: after the demo fetch and a throwing classifier the
session's file list equals MOCK_FILES, which is not empty — the fetched
files are not discarded as the claim states. -/
theorem classify_failure_cex :
    (startAnalysis true false exLogin exListFiles exClassifyBoom initSession).files =
      MOCK_FILES ∧
    MOCK_FILES ≠ [] ∧
    (startAnalysis true false exLogin exListFiles exClassifyBoom initSession).state =
      AppState.LANDING := by
  refine ⟨rfl, ?_, rfl⟩
  simp [MOCK_FILES]

/-- C6 amended: the reset click changes only the phase (to LANDING); files,
candidates, selection and error are all retained, so the reset session
equals a freshly constructed one exactly when those fields were already at
their fresh values. -/
theorem reset_only_changes_phase (s : Session) :
    (resetClick s).state = AppState.LANDING ∧
    (resetClick s).files = s.files ∧
    (resetClick s).candidates = s.candidates ∧
    (resetClick s).selectedIds = s.selectedIds ∧
    (resetClick s).error = s.error ∧
    (resetClick s = initSession ↔
      s.files = [] ∧ s.candidates = [] ∧ s.selectedIds = [] ∧
      s.agentMessage = initSession.agentMessage ∧ s.error = none) := by
  obtain ⟨st, fs, cs, sel, msg, er⟩ := s
  refine ⟨rfl, rfl, rfl, rfl, rfl, ?_⟩
  simp [resetClick, initSession, Session.mk.injEq, and_assoc]

/-- C6 counterexample: a session that reached COMPLETED through the demo
pipeline still holds the unpurged files after the reset click, so the
reset session differs from a freshly constructed one. -/
theorem reset_not_fresh_cex :
    exCompletedSession.state = AppState.COMPLETED ∧
    (resetClick exCompletedSession).state = AppState.LANDING ∧
    (resetClick exCompletedSession).files ≠ initSession.files ∧
    resetClick exCompletedSession ≠ initSession := by
  refine ⟨by decide, by decide, by decide, by decide⟩

/-- C7 amended: the toggle handler flips membership for any id without
checking candidacy; the selection stays within the candidate id set only
when the toggled id is itself a candidate id (which is all the UI ever
passes, since cards are rendered per candidate). -/
theorem toggle_within_candidates (cands : List CleanupCandidate)
    (sel : List String) (x y : String)
    (hsub : ∀ z ∈ sel, z ∈ cands.map (fun c => c.id))
    (hx : x ∈ cands.map (fun c => c.id))
    (hy : y ∈ toggleSelection sel x) :
    y ∈ cands.map (fun c => c.id) := by
  unfold toggleSelection at hy
  by_cases hmem : x ∈ sel
  · rw [if_pos hmem] at hy
    exact hsub y (List.mem_of_mem_erase hy)
  · rw [if_neg hmem] at hy
    rcases List.mem_append.mp hy with h | h
    · exact hsub y h
    · rw [List.mem_singleton] at h
      subst h
      exact hx

/-- Witness for the amended C7: toggling candidate id f1 into an empty
selection keeps the selection within the candidate ids. -/
theorem toggle_within_candidates_witness :
    "f1" ∈ [exDupCand1].map (fun c => c.id) :=
  toggle_within_candidates [exDupCand1] [] "f1" "f1" (by decide) (by decide)
    (by decide)

/-- C7 counterexample: in a REVIEWING session whose only candidate id is
f1, toggling the non-candidate id zz is not a no-op — it adds zz to the
selection, so the selection no longer corresponds to candidate ids. -/
theorem toggle_unknown_id_cex :
    ("zz" ∉ exReviewingSmall.candidates.map (fun c => c.id)) ∧
    toggleSelection exReviewingSmall.selectedIds "zz" ≠
      exReviewingSmall.selectedIds ∧
    "zz" ∈ toggleSelection exReviewingSmall.selectedIds "zz" := by
  refine ⟨by decide, by decide, by decide⟩

/-- C8: toggling the same id twice leaves the selection set unchanged as a
set — membership after the double toggle agrees with membership before,
for every id (the selection list is duplicate-free, as a JS Set is). -/
theorem toggle_toggle_id (sel : List String) (x y : String) (h : sel.Nodup) :
    (y ∈ toggleSelection (toggleSelection sel x) x) ↔ y ∈ sel := by
  unfold toggleSelection
  by_cases hx : x ∈ sel
  · rw [if_pos hx]
    have hxe : x ∉ sel.erase x := fun hc => ((List.Nodup.mem_erase_iff h).mp hc).1 rfl
    rw [if_neg hxe]
    simp only [List.mem_append, List.mem_singleton, List.Nodup.mem_erase_iff h]
    constructor
    · rintro (⟨hne, hmem⟩ | rfl)
      · exact hmem
      · exact hx
    · intro hmem
      by_cases hyx : y = x
      · exact Or.inr hyx
      · exact Or.inl ⟨hyx, hmem⟩
  · rw [if_neg hx]
    have hxin : x ∈ sel ++ [x] :=
      List.mem_append.mpr (Or.inr (List.mem_singleton.mpr rfl))
    rw [if_pos hxin, List.erase_append_right _ hx]
    simp

/-- Witness for C8 on the concrete selection a, b toggled twice at a. -/
theorem toggle_toggle_id_witness :
    ("a" ∈ toggleSelection (toggleSelection ["a", "b"] "a") "a") ↔
      "a" ∈ ["a", "b"] :=
  toggle_toggle_id ["a", "b"] "a" "a" (by decide)

/-- C9: for every file of the demonstration set, trashFile reports success
and issues no Drive API update call, whatever the API oracle would do. -/
theorem trashFile_demo_noop (api : String → Except String Unit) (f : DriveFile)
    (hf : f ∈ MOCK_FILES) : trashFile api f.id = (Except.ok (), []) := by
  fin_cases hf <;> rfl

/-- Witness for C9 at the first demo file and an always-failing API oracle. -/
theorem trashFile_demo_noop_witness :
    mockFile1 ∈ MOCK_FILES ∧ trashFile exApiFail mockFile1.id = (Except.ok (), []) :=
  ⟨by decide, trashFile_demo_noop exApiFail mockFile1 (by decide)⟩

end DrivePurge
